import Mathlib

/-!
Shallow embedding of the forex-scalper trading engine core
(backtest engine, paper broker, risk manager, candle aggregator,
live trading engine), translated from the Python sources, together
with theorems settling the specification claims.

Prices, volumes and PnL amounts are modelled as exact rationals (ℚ);
timestamps as naturals (epoch seconds); UTC dates as integers.
-/

namespace ForexScalper

/-- Order side, from `src/broker/base.py` (`OrderSide` enum). -/
inductive OrderSide where
  | buy
  | sell
deriving DecidableEq, Repr

/-- `OrderSide.value`: the string payload of the enum ("BUY" / "SELL"). -/
def OrderSide.value : OrderSide → String
  | .buy => "BUY"
  | .sell => "SELL"

/-- Exit reasons attached to closed trades ("SL", "TP", "MANUAL",
"SHUTDOWN", "END" in the Python sources). -/
inductive ExitReason where
  | sl
  | tp
  | manual
  | shutdown
  | endOfData
deriving DecidableEq, Repr

/-! ## BacktestEngine (`src/backtest/engine.py`) -/

namespace Backtest

/-- `Position` dataclass of `src/backtest/engine.py`.  The side is kept as
a string exactly as in the source (`side: str  # "BUY" or "SELL"`). -/
structure Position where
  side : String
  entryTime : ℕ
  entryPrice : ℚ
  volume : ℚ
  sl : ℚ
  tp : ℚ
  barIndex : ℕ
deriving DecidableEq, Repr

/-- A closed trade row as built by `BacktestEngine._build_trade` /
the END force-close block (strategy/symbol/timeframe metadata omitted:
they are constant strings attached to every trade). -/
structure Trade where
  side : String
  entryTime : ℕ
  exitTime : ℕ
  entryPrice : ℚ
  exitPrice : ℚ
  volume : ℚ
  pnl : ℚ
  sl : ℚ
  tp : ℚ
  exitReason : ExitReason
deriving DecidableEq, Repr

/-- The per-engine configuration relevant to the arithmetic:
`BacktestConfig` fields plus the engine's `pip_value`
(`PIP_VALUES.get(symbol, 0.0001)` resolved at construction). -/
structure EngineCfg where
  capital : ℚ
  spreadPips : ℚ
  slippagePips : ℚ
  riskPerTrade : ℚ
  maxPositions : ℕ
  useRiskSizing : Bool
  pipValue : ℚ
deriving DecidableEq, Repr

/-- `BacktestEngine._calc_pnl`. -/
def calcPnl (cfg : EngineCfg) (pos : Position) (exitPrice : ℚ) : ℚ :=
  if pos.side = "BUY" then
    (exitPrice - pos.entryPrice) * pos.volume / cfg.pipValue
  else
    (pos.entryPrice - exitPrice) * pos.volume / cfg.pipValue

/-- `BacktestEngine._unrealized_pnl` (delegates to `_calc_pnl`). -/
def unrealizedPnl (cfg : EngineCfg) (pos : Position) (currentPrice : ℚ) : ℚ :=
  calcPnl cfg pos currentPrice

/-- `BacktestEngine._build_trade`. -/
def buildTrade (cfg : EngineCfg) (pos : Position) (exitPrice : ℚ)
    (timestamp : ℕ) (reason : ExitReason) : Trade :=
  { side := pos.side
    entryTime := pos.entryTime
    exitTime := timestamp
    entryPrice := pos.entryPrice
    exitPrice := exitPrice
    volume := pos.volume
    pnl := calcPnl cfg pos exitPrice
    sl := pos.sl
    tp := pos.tp
    exitReason := reason }

/-- `BacktestEngine._check_exit`: SL checked before TP (conservative). -/
def checkExit (cfg : EngineCfg) (pos : Position) (barHigh barLow barClose : ℚ)
    (timestamp : ℕ) : Option Trade :=
  if pos.side = "BUY" then
    if barLow ≤ pos.sl then some (buildTrade cfg pos pos.sl timestamp .sl)
    else if barHigh ≥ pos.tp then some (buildTrade cfg pos pos.tp timestamp .tp)
    else none
  else
    if barHigh ≥ pos.sl then some (buildTrade cfg pos pos.sl timestamp .sl)
    else if barLow ≤ pos.tp then some (buildTrade cfg pos pos.tp timestamp .tp)
    else none

/-- `BacktestEngine._apply_spread_slippage`. -/
def applySpreadSlippage (cfg : EngineCfg) (price : ℚ) (side : String) : ℚ :=
  let adjustment := (cfg.spreadPips + cfg.slippagePips) * cfg.pipValue
  if side = "BUY" then price + adjustment else price - adjustment

/-- `BacktestEngine._calculate_volume`. -/
def calculateVolume (cfg : EngineCfg) (equity entryPrice slPrice : ℚ) : ℚ :=
  if cfg.useRiskSizing = false then 1
  else
    let riskAmount := equity * cfg.riskPerTrade
    let slDistance := |entryPrice - slPrice|
    if slDistance = 0 then 0
    else max (riskAmount * cfg.pipValue / slDistance) 0

end Backtest

/-! ## PaperBroker (`src/broker/paper.py`) -/

namespace Paper

/-- `PaperPosition` dataclass of `src/broker/paper.py`. -/
structure PaperPosition where
  orderId : String
  symbol : String
  side : OrderSide
  entryPrice : ℚ
  volume : ℚ
  sl : ℚ
  tp : ℚ
  entryTime : ℕ
deriving DecidableEq, Repr

/-- `PaperBroker._calc_pnl` (the broker's `_pip_value` is passed
explicitly; it is `PIP_VALUES.get(symbol, 0.0001)` at construction). -/
def calcPnl (pipValue : ℚ) (pos : PaperPosition) (exitPrice : ℚ) : ℚ :=
  if pos.side = OrderSide.buy then
    (exitPrice - pos.entryPrice) * pos.volume / pipValue
  else
    (pos.entryPrice - exitPrice) * pos.volume / pipValue

end Paper

/-! ## RiskManager (`src/risk/manager.py`) -/

namespace Risk

/-- `PIP_VALUES` from `config/settings.py`, with the `.get(symbol, 0.0001)`
default used throughout the sources. -/
def pipValues (symbol : String) : ℚ :=
  if symbol = "EURUSD=X" then 1/10000
  else if symbol = "GBPUSD=X" then 1/10000
  else if symbol = "USDJPY=X" then 1/100
  else 1/10000

/-- `CORRELATION_GROUPS` from `config/settings.py`. -/
def CORRELATION_GROUPS : List (String × List String) :=
  [("USD_LONG", ["EURUSD=X_SELL", "GBPUSD=X_SELL", "USDJPY=X_BUY"]),
   ("USD_SHORT", ["EURUSD=X_BUY", "GBPUSD=X_BUY", "USDJPY=X_SELL"])]

/-- An open-position dict as returned by `broker.get_positions()` and read
by the RiskManager (only the fields the manager reads are modelled). -/
structure BrokerPosition where
  symbol : String
  side : String
  entryPrice : ℚ
  volume : ℚ
  sl : ℚ
  tp : ℚ
deriving DecidableEq, Repr

/-- Constructor parameters of `RiskManager.__init__`. -/
structure Params where
  maxDailyLossPct : ℚ
  maxPortfolioRiskPct : ℚ
  maxCorrelatedExposure : ℕ
  maxOpenPositions : ℕ
  positionSizeMethod : String
  kellyFraction : ℚ
  riskPerTrade : ℚ
  correlationGroups : List (String × List String)
deriving DecidableEq, Repr

/-- The mutable state behind the RiskManager's lock (`_circuit_breaker_active`,
`_daily_date`, `_daily_starting_equity`, `_daily_realized_pnl`, and the four
Kelly counters). -/
structure State where
  circuitBreakerActive : Bool
  dailyDate : Option ℤ
  dailyStartingEquity : ℚ
  dailyRealizedPnl : ℚ
  winCount : ℕ
  lossCount : ℕ
  totalWins : ℚ
  totalLosses : ℚ
deriving DecidableEq, Repr

/-- State set up by `RiskManager.__init__`. -/
def initialState : State :=
  { circuitBreakerActive := false, dailyDate := none, dailyStartingEquity := 0
    dailyRealizedPnl := 0, winCount := 0, lossCount := 0
    totalWins := 0, totalLosses := 0 }

/-- `RiskManager._ensure_daily_reset`.  `today` stands for
`datetime.now(timezone.utc).date()` and `equity` for the broker's
`get_account_info()["equity"]` at the moment of the call. -/
def ensureDailyReset (today : ℤ) (equity : ℚ) (s : State) : State :=
  if s.dailyDate ≠ some today then
    { s with circuitBreakerActive := false, dailyRealizedPnl := 0
             dailyStartingEquity := equity, dailyDate := some today }
  else s

/-- `RiskManager.reset_daily`. -/
def resetDaily (today : ℤ) (equity : ℚ) (s : State) : State :=
  { s with circuitBreakerActive := false, dailyRealizedPnl := 0
           dailyStartingEquity := equity, dailyDate := some today }

/-- `RiskManager.check_daily_loss`: returns the boolean result and the new
state.  Note the order in the source: the circuit-breaker fast-fail comes
BEFORE `_ensure_daily_reset()`. -/
def checkDailyLoss (p : Params) (today : ℤ) (equity : ℚ) (s : State) :
    Bool × State :=
  if s.circuitBreakerActive then (false, s)
  else
    let s1 := ensureDailyReset today equity s
    let dailyPnl := equity - s1.dailyStartingEquity
    if 0 < s1.dailyStartingEquity then
      let lossPct := |min dailyPnl 0| / s1.dailyStartingEquity * 100
      if p.maxDailyLossPct ≤ lossPct then
        (false, { s1 with circuitBreakerActive := true })
      else (true, s1)
    else (true, s1)

/-- The `f"{symbol}_{side}"` key of an open position. -/
def posKey (pos : BrokerPosition) : String := pos.symbol ++ "_" ++ pos.side

/-- The correlation-group loop of `RiskManager.check_position_limits`. -/
def checkGroups (maxCorrelatedExposure : ℕ) (positions : List BrokerPosition)
    (newKey : String) : List (String × List String) → Bool
  | [] => true
  | g :: rest =>
    if newKey ∈ g.2 then
      let count := (positions.filter fun pos => decide (posKey pos ∈ g.2)).length
      if maxCorrelatedExposure ≤ count then false
      else checkGroups maxCorrelatedExposure positions newKey rest
    else checkGroups maxCorrelatedExposure positions newKey rest

/-- `RiskManager.check_position_limits(symbol, side)`; `positions` is the
broker's `get_positions()` snapshot. -/
def checkPositionLimits (p : Params) (positions : List BrokerPosition)
    (symbol side : String) : Bool :=
  if p.maxOpenPositions ≤ positions.length then false
  else checkGroups p.maxCorrelatedExposure positions (symbol ++ "_" ++ side)
    p.correlationGroups

/-- `RiskManager._kelly_size`. -/
def kellySize (p : Params) (s : State) : ℚ :=
  let total := s.winCount + s.lossCount
  if total < 10 then p.riskPerTrade
  else
    let pw : ℚ := (s.winCount : ℚ) / (total : ℚ)
    let q := 1 - pw
    let avgWin := if 0 < s.winCount then s.totalWins / (s.winCount : ℚ) else 0
    let avgLoss := if 0 < s.lossCount then s.totalLosses / (s.lossCount : ℚ) else 1
    let b := if 0 < avgLoss then avgWin / avgLoss else 0
    if b ≤ 0 then p.riskPerTrade
    else min (max ((pw * b - q) / b) 0) p.kellyFraction

/-- `RiskManager.calculate_position_size(account_equity, sl_distance, symbol)`. -/
def calculatePositionSize (p : Params) (s : State)
    (accountEquity slDistance : ℚ) (symbol : String) : ℚ :=
  if slDistance ≤ 0 then 0
  else
    let pipValue := pipValues symbol
    let riskAmount :=
      if p.positionSizeMethod = "kelly" then accountEquity * kellySize p s
      else accountEquity * p.riskPerTrade
    max (riskAmount * pipValue / slDistance) 0

/-- `RiskManager.record_trade(pnl)`. -/
def recordTrade (s : State) (pnl : ℚ) : State :=
  let s1 := { s with dailyRealizedPnl := s.dailyRealizedPnl + pnl }
  if 0 < pnl then
    { s1 with winCount := s1.winCount + 1, totalWins := s1.totalWins + pnl }
  else if pnl < 0 then
    { s1 with lossCount := s1.lossCount + 1, totalLosses := s1.totalLosses + |pnl| }
  else s1

end Risk

/-! ## CandleAggregator (`src/engine/candle_aggregator.py`) -/

namespace Candles

/-- `CANDLE_HISTORY_SIZE` from `config/settings.py` (default "250"). -/
def CANDLE_HISTORY_SIZE : ℕ := 250

/-- `TIMEFRAME_SECONDS` from `src/engine/candle_aggregator.py`. -/
def TIMEFRAME_SECONDS : String → Option ℕ
  | "1m" => some 60
  | "5m" => some 300
  | "15m" => some 900
  | "1h" => some 3600
  | "4h" => some 14400
  | "1d" => some 86400
  | _ => none

/-- `_floor_timestamp` on epoch seconds: `(epoch // seconds) * seconds`. -/
def floorTimestamp (ts : ℕ) (seconds : ℕ) : ℕ := ts / seconds * seconds

/-- `CandleBuilder` dataclass.  In the source `high`/`low` start at
`-inf`/`+inf`; a builder is only observed after at least one `update`, and
`max(-inf, p) = p`, `min(+inf, p) = p`, so the sentinels are encoded exactly
by the `tick_count = 0` branch of `update` below. -/
structure CandleBuilder where
  timestamp : ℕ
  openPrice : ℚ
  high : ℚ
  low : ℚ
  close : ℚ
  volume : ℕ
  tickCount : ℕ
deriving DecidableEq, Repr

/-- A fresh `CandleBuilder(timestamp=candle_ts)` before its first update. -/
def CandleBuilder.init (ts : ℕ) : CandleBuilder :=
  { timestamp := ts, openPrice := 0, high := 0, low := 0, close := 0
    volume := 0, tickCount := 0 }

/-- `CandleBuilder.update(price)`. -/
def CandleBuilder.update (b : CandleBuilder) (price : ℚ) : CandleBuilder :=
  { b with
    openPrice := if b.tickCount = 0 then price else b.openPrice
    high := if b.tickCount = 0 then price else max b.high price
    low := if b.tickCount = 0 then price else min b.low price
    close := price
    tickCount := b.tickCount + 1
    volume := b.volume + 1 }

/-- A sealed candle (`CandleBuilder.to_dict`). -/
structure Candle where
  timestamp : ℕ
  openPrice : ℚ
  high : ℚ
  low : ℚ
  close : ℚ
  volume : ℕ
deriving DecidableEq, Repr

/-- `CandleBuilder.to_dict`. -/
def CandleBuilder.toCandle (b : CandleBuilder) : Candle :=
  { timestamp := b.timestamp, openPrice := b.openPrice, high := b.high
    low := b.low, close := b.close, volume := b.volume }

/-- `CandleAggregator` state: period length, bounded history, current builder. -/
structure Aggregator where
  periodSeconds : ℕ
  history : List Candle
  current : Option CandleBuilder
deriving DecidableEq, Repr

/-- `deque(maxlen=CANDLE_HISTORY_SIZE)` append: drop from the left on
overflow. -/
def pushHistory (h : List Candle) (c : Candle) : List Candle :=
  let h1 := h ++ [c]
  if CANDLE_HISTORY_SIZE < h1.length then h1.drop (h1.length - CANDLE_HISTORY_SIZE)
  else h1

/-- `CandleAggregator.__init__(timeframe)`: unsupported timeframes raise
`ValueError` at construction. -/
def mkAggregator (timeframe : String) : Except String Aggregator :=
  match TIMEFRAME_SECONDS timeframe with
  | none => .error ("Unsupported timeframe: " ++ timeframe)
  | some s => .ok { periodSeconds := s, history := [], current := none }

/-- An aggregator with a given period and empty state (what `__init__`
produces for a supported timeframe). -/
def Aggregator.start (periodSeconds : ℕ) : Aggregator :=
  { periodSeconds := periodSeconds, history := [], current := none }

/-- The mid-price `(bid + ask) / 2`. -/
def mid (bid ask : ℚ) : ℚ := (bid + ask) / 2

/-- `CandleAggregator.on_tick(timestamp, bid, ask)`: returns the completed
candle (if a period boundary was crossed) and the new aggregator state. -/
def Aggregator.onTick (agg : Aggregator) (ts : ℕ) (bid ask : ℚ) :
    Option Candle × Aggregator :=
  let m := mid bid ask
  let candleTs := floorTimestamp ts agg.periodSeconds
  match agg.current with
  | none =>
    (none, { agg with current := some ((CandleBuilder.init candleTs).update m) })
  | some cur =>
    if cur.timestamp < candleTs then
      let completed := cur.toCandle
      (some completed,
       { agg with history := pushHistory agg.history completed
                  current := some ((CandleBuilder.init candleTs).update m) })
    else
      (none, { agg with current := some (cur.update m) })

/-- A tick as delivered to the aggregator. -/
structure Tick where
  ts : ℕ
  bid : ℚ
  ask : ℚ
deriving DecidableEq, Repr

/-- Feed a sequence of ticks, discarding the produced candles. -/
def Aggregator.feed (agg : Aggregator) : List Tick → Aggregator
  | [] => agg
  | t :: rest => ((agg.onTick t.ts t.bid t.ask).2).feed rest

end Candles

/-! ## TradingEngine (`src/engine/trading.py`) -/

namespace Engine

/-- The engine state observable by `TradingEngine.start()`: the `_running`
flag, how many streaming threads have been spawned, how many warm-ups have
been performed, and the events emitted so far. -/
structure EngineState where
  running : Bool
  streamThreads : ℕ
  warmups : ℕ
  events : List String
deriving DecidableEq, Repr

/-- `TradingEngine.start()`: `self._warmup(); self._running.set();
threading.Thread(target=self._run_stream, ...).start(); emit
"engine_started"` — the source performs no check of the current state. -/
def start (s : EngineState) : EngineState :=
  { running := true
    streamThreads := s.streamThreads + 1
    warmups := s.warmups + 1
    events := s.events ++ ["engine_started"] }

/-- Control-flow skeleton of `TradingEngine._on_tick`.  The fallible
sub-steps are abstracted by oracles telling whether they raise:
`brokerRaises` — the `try` block (`broker.update_price` and, when the broker
does not manage stops, `_check_sl_tp`); `aggRaises` —
`self._aggregator.on_tick`; `candleSealed`/`closeRaises` — whether a candle
completed and whether `_on_candle_close` raises.  Returns `.error ()` when
an exception propagates out of `_on_tick`, else the new
`_consecutive_tick_errors` counter. -/
def onTickFlow (running : Bool)
    (brokerRaises aggRaises candleSealed closeRaises : Bool)
    (errors : ℕ) : Except Unit ℕ :=
  if running = false then .ok errors
  else
    let errors1 := if brokerRaises then errors + 1 else 0
    if aggRaises then .error ()
    else if candleSealed && closeRaises then .error ()
    else .ok errors1

/-- The per-position decision inside `TradingEngine._check_sl_tp`: given a
position's side string, its sl/tp and the current bid/ask, the close
instruction (exit price and reason) passed to `broker.close_position`, or
`none` when the position stays open.  SL is checked before TP. -/
def checkSlTpOne (side : String) (sl tp bid ask : ℚ) : Option (ℚ × ExitReason) :=
  if side = "BUY" then
    if bid ≤ sl then some (sl, .sl)
    else if bid ≥ tp then some (tp, .tp)
    else none
  else
    if ask ≥ sl then some (sl, .sl)
    else if ask ≤ tp then some (tp, .tp)
    else none

end Engine

/-! ## BacktestEngine.run (`src/backtest/engine.py`, bar loop) -/

namespace Backtest

/-- One row of the input DataFrame: the required columns `close`, `high`,
`low`, `signal`, `sl`, `tp`, `timestamp`.  A NaN `signal`/`sl`/`tp` is
modelled as `none` (the source maps a NaN signal to 0 and skips entries
with NaN sl/tp). -/
structure Bar where
  timestamp : ℕ
  close : ℚ
  high : ℚ
  low : ℚ
  signal : Option ℤ
  sl : Option ℚ
  tp : Option ℚ
deriving DecidableEq, Repr

/-- The loop state of `BacktestEngine.run`: realized equity, open
positions, closed trades and the equity curve. -/
structure RunState where
  equity : ℚ
  openPositions : List Position
  closedTrades : List Trade
  equityCurve : List ℚ
deriving DecidableEq, Repr

/-- Phase A of the bar loop: check SL/TP on each open position in order;
returns the remaining positions, the trades closed on this bar and their
total PnL. -/
def phaseA (cfg : EngineCfg) (barHigh barLow barClose : ℚ) (ts : ℕ) :
    List Position → List Position × List Trade × ℚ
  | [] => ([], [], 0)
  | pos :: rest =>
    let r := phaseA cfg barHigh barLow barClose ts rest
    match checkExit cfg pos barHigh barLow barClose ts with
    | some t => (r.1, t :: r.2.1, t.pnl + r.2.2)
    | none => (pos :: r.1, r.2.1, r.2.2)

/-- Phase B of the bar loop: open a new position when the bar carries a
non-trivial signal, the position count is below the maximum, sl/tp are
defined and the computed volume is positive.  `sig = 1` maps to BUY, any
other non-zero signal to SELL, exactly as in the source. -/
def phaseB (cfg : EngineCfg) (i : ℕ) (bar : Bar) (equity : ℚ)
    (openPositions : List Position) : List Position :=
  let sig := bar.signal.getD 0
  if sig = 0 then openPositions
  else if cfg.maxPositions ≤ openPositions.length then openPositions
  else
    match bar.sl, bar.tp with
    | some slPrice, some tpPrice =>
      let side := if sig = 1 then "BUY" else "SELL"
      let entryPrice := applySpreadSlippage cfg bar.close side
      let volume := calculateVolume cfg equity entryPrice slPrice
      if 0 < volume then
        openPositions ++
          [{ side := side, entryTime := bar.timestamp, entryPrice := entryPrice
             volume := volume, sl := slPrice, tp := tpPrice, barIndex := i }]
      else openPositions
    | _, _ => openPositions

/-- Phase C: mark-to-market equity (realized equity plus the unrealized
PnL of every open position at the bar's close). -/
def markToMarket (cfg : EngineCfg) (equity : ℚ) (positions : List Position)
    (barClose : ℚ) : ℚ :=
  positions.foldl (fun acc pos => acc + unrealizedPnl cfg pos barClose) equity

/-- One iteration of the bar loop of `BacktestEngine.run`. -/
def processBar (cfg : EngineCfg) (i : ℕ) (bar : Bar) (st : RunState) : RunState :=
  let a := phaseA cfg bar.high bar.low bar.close bar.timestamp st.openPositions
  let equity1 := st.equity + a.2.2
  let open1 := phaseB cfg i bar equity1 a.1
  { equity := equity1
    openPositions := open1
    closedTrades := st.closedTrades ++ a.2.1
    equityCurve := st.equityCurve ++ [markToMarket cfg equity1 open1 bar.close] }

/-- The indexed bar loop of `BacktestEngine.run`. -/
def runBars (cfg : EngineCfg) : ℕ → List Bar → RunState → RunState
  | _, [], st => st
  | i, bar :: rest, st => runBars cfg (i + 1) rest (processBar cfg i bar st)

/-- One END force-close row of the `run` epilogue (exit at the final bar's
close price, reason "END"). -/
def endTrade (cfg : EngineCfg) (lastClose : ℚ) (lastTs : ℕ) (pos : Position) :
    Trade :=
  { side := pos.side, entryTime := pos.entryTime, exitTime := lastTs
    entryPrice := pos.entryPrice, exitPrice := lastClose, volume := pos.volume
    pnl := calcPnl cfg pos lastClose, sl := pos.sl, tp := pos.tp
    exitReason := .endOfData }

/-- `BacktestEngine.run` on a list of bars: the bar loop followed by the
END force-close of any still-open positions at `close[-1]` /
`timestamps[-1]`.  Returns the closed trades and the equity curve. -/
def run (cfg : EngineCfg) (bars : List Bar) : List Trade × List ℚ :=
  let st := runBars cfg 0 bars
    { equity := cfg.capital, openPositions := [], closedTrades := []
      equityCurve := [] }
  let lastClose := (bars.map Bar.close).getLastD 0
  let lastTs := (bars.map Bar.timestamp).getLastD 0
  (st.closedTrades ++ st.openPositions.map (endTrade cfg lastClose lastTs),
   st.equityCurve)

end Backtest

/-! ## Concrete instances used by witnesses and counterexamples -/

/-- RiskManager parameters with the defaults of `config/settings.py`
(`MAX_DAILY_LOSS_PCT = 5.0`, `MAX_PORTFOLIO_RISK_PCT = 10.0`,
`MAX_CORRELATED_EXPOSURE = 2`, `MAX_OPEN_POSITIONS = 3`,
`POSITION_SIZE_METHOD = "fixed_risk"`, `KELLY_FRACTION = 0.5`,
`RISK_PER_TRADE = 0.02`). -/
def rmParamsDemo : Risk.Params :=
  { maxDailyLossPct := 5, maxPortfolioRiskPct := 10, maxCorrelatedExposure := 2
    maxOpenPositions := 3, positionSizeMethod := "fixed_risk"
    kellyFraction := 1/2, riskPerTrade := 1/50
    correlationGroups := Risk.CORRELATION_GROUPS }

/-- Risk state after `reset_daily()` on day 0 with equity 10000. -/
def riskBase : Risk.State := Risk.resetDaily 0 10000 Risk.initialState

/-- Risk state after the circuit breaker trips on day 0 (equity 9400,
a 6% daily loss against the 5% limit). -/
def riskTripped : Risk.State := (Risk.checkDailyLoss rmParamsDemo 0 9400 riskBase).2

/-- A small backtest configuration: capital 1000, no spread/slippage,
fixed unit sizing (`use_risk_sizing = False`), pip value 1. -/
def btCfgDemo : Backtest.EngineCfg :=
  { capital := 1000, spreadPips := 0, slippagePips := 0, riskPerTrade := 1/50
    maxPositions := 3, useRiskSizing := false, pipValue := 1 }

/-- Two bars: bar 0 carries a BUY signal with sl 5 / tp 15 and its own
range (low 1, high 20) already touches both; bar 1 (low 2) triggers the
stop. -/
def btBarsDemo : List Backtest.Bar :=
  [{ timestamp := 0, close := 10, high := 20, low := 1, signal := some 1
     sl := some 5, tp := some 15 },
   { timestamp := 1, close := 10, high := 10, low := 2, signal := none
     sl := none, tp := none }]

/-- The single closed trade `run btCfgDemo btBarsDemo` produces: the BUY
opened on bar 0 is stopped out on bar 1, not on bar 0. -/
def btTradeDemo : Backtest.Trade :=
  { side := "BUY", entryTime := 0, exitTime := 1, entryPrice := 10
    exitPrice := 5, volume := 1, pnl := -5, sl := 5, tp := 15
    exitReason := ExitReason.sl }

end ForexScalper

namespace ForexScalper

/-- C1: for the same side, entry price, volume, exit price and pip value,
`BacktestEngine._calc_pnl` and `PaperBroker._calc_pnl` compute the identical
value: `(exit − entry) × volume / pip_value` for BUY and
`(entry − exit) × volume / pip_value` for SELL. -/
theorem backtest_paper_pnl_identical
    (side : OrderSide) (entryPrice volume exitPrice pipValue : ℚ)
    (entryTimeB entryTimeP barIndex : ℕ) (slB tpB slP tpP : ℚ)
    (oid sym : String) (cfg : Backtest.EngineCfg) (hpip : cfg.pipValue = pipValue) :
    Backtest.calcPnl cfg
      { side := side.value, entryTime := entryTimeB, entryPrice := entryPrice,
        volume := volume, sl := slB, tp := tpB, barIndex := barIndex } exitPrice
      = Paper.calcPnl pipValue
        { orderId := oid, symbol := sym, side := side, entryPrice := entryPrice,
          volume := volume, sl := slP, tp := tpP, entryTime := entryTimeP } exitPrice
    ∧ Backtest.calcPnl cfg
        { side := side.value, entryTime := entryTimeB, entryPrice := entryPrice,
          volume := volume, sl := slB, tp := tpB, barIndex := barIndex } exitPrice
      = (if side = OrderSide.buy then (exitPrice - entryPrice) * volume / pipValue
         else (entryPrice - exitPrice) * volume / pipValue) := by
  cases side <;>
    simp [Backtest.calcPnl, Paper.calcPnl, OrderSide.value, hpip]

/-- Witness for `backtest_paper_pnl_identical` at concrete inputs. -/
theorem backtest_paper_pnl_identical_witness :
    (⟨10000, 1, 2, 3, 1, true, 1/10000⟩ : Backtest.EngineCfg).pipValue = 1/10000 ∧
    Backtest.calcPnl ⟨10000, 1, 2, 3, 1, true, 1/10000⟩
      { side := OrderSide.buy.value, entryTime := 0, entryPrice := 11/10,
        volume := 2, sl := 1, tp := 2, barIndex := 0 } (12/10)
      = Paper.calcPnl (1/10000)
        { orderId := "PAPER-000001", symbol := "EURUSD=X", side := OrderSide.buy,
          entryPrice := 11/10, volume := 2, sl := 1, tp := 2, entryTime := 0 } (12/10) := by
  have h := backtest_paper_pnl_identical OrderSide.buy (11/10) 2 (12/10) (1/10000)
    0 0 0 1 2 1 2 "PAPER-000001" "EURUSD=X" ⟨10000, 1, 2, 3, 1, true, 1/10000⟩ rfl
  exact ⟨rfl, h.1⟩

/-- C2: evaluating `check_daily_loss` at the failing scenario.  Baseline
10000 set on day 0; equity drops to 9400 (a 6% daily loss against the 5%
limit), so the call trips the breaker and returns false.  A later call made
on day 1 — after the UTC date has advanced — still returns false and leaves
the state (breaker included) completely unchanged: the breaker fast-fail in
`check_daily_loss` precedes `_ensure_daily_reset()`, so the auto-reset the
claim describes never runs while the breaker is active. -/
theorem check_daily_loss_stays_tripped_after_date_change :
    (Risk.checkDailyLoss rmParamsDemo 0 9400 riskBase).1 = false ∧
    riskTripped.circuitBreakerActive = true ∧
    riskTripped.dailyDate = some 0 ∧
    (Risk.checkDailyLoss rmParamsDemo 1 9400 riskTripped).1 = false ∧
    (Risk.checkDailyLoss rmParamsDemo 1 9400 riskTripped).2 = riskTripped := by
  have h1 : Risk.checkDailyLoss rmParamsDemo 0 9400 riskBase
      = (false,
         { circuitBreakerActive := true, dailyDate := some 0
           dailyStartingEquity := 10000, dailyRealizedPnl := 0, winCount := 0
           lossCount := 0, totalWins := 0, totalLosses := 0 }) := by
    norm_num [Risk.checkDailyLoss, Risk.ensureDailyReset, Risk.resetDaily,
      Risk.initialState, rmParamsDemo, riskBase, min_def]
  have h2 : riskTripped
      = { circuitBreakerActive := true, dailyDate := some 0
          dailyStartingEquity := 10000, dailyRealizedPnl := 0, winCount := 0
          lossCount := 0, totalWins := 0, totalLosses := 0 } := by
    unfold riskTripped
    rw [h1]
  refine ⟨by rw [h1], by rw [h2], by rw [h2], ?_, ?_⟩
  · rw [h2]
    simp [Risk.checkDailyLoss]
  · rw [h2]
    simp [Risk.checkDailyLoss]

/-- C3: when a bar's range touches both the stop-loss and the take-profit
of an open position (for BUY: low ≤ sl and high ≥ tp; for SELL: high ≥ sl
and low ≤ tp), `BacktestEngine._check_exit` resolves to an SL exit at
exactly the stop price, never TP; and the per-tick check of
`TradingEngine._check_sl_tp` likewise tests SL before TP, closing at the
stop price when both thresholds are breached. -/
theorem sl_resolved_before_tp
    (cfg : Backtest.EngineCfg) (pos : Backtest.Position)
    (barHigh barLow barClose : ℚ) (ts : ℕ)
    (htouch : if pos.side = "BUY" then barLow ≤ pos.sl ∧ pos.tp ≤ barHigh
              else pos.sl ≤ barHigh ∧ barLow ≤ pos.tp) :
    Backtest.checkExit cfg pos barHigh barLow barClose ts
      = some (Backtest.buildTrade cfg pos pos.sl ts ExitReason.sl) ∧
    (∀ (side : String) (sl tp bid ask : ℚ),
      (if side = "BUY" then bid ≤ sl ∧ tp ≤ bid else sl ≤ ask ∧ ask ≤ tp) →
      Engine.checkSlTpOne side sl tp bid ask = some (sl, ExitReason.sl)) := by
  constructor
  · by_cases hside : pos.side = "BUY"
    · rw [if_pos hside] at htouch
      simp [Backtest.checkExit, hside, htouch.1]
    · rw [if_neg hside] at htouch
      simp [Backtest.checkExit, hside, htouch.1]
  · intro side sl tp bid ask h
    by_cases hside : side = "BUY"
    · rw [if_pos hside] at h
      simp [Engine.checkSlTpOne, hside, h.1]
    · rw [if_neg hside] at h
      simp [Engine.checkSlTpOne, hside, h.1]

/-- Witness for `sl_resolved_before_tp`: a BUY position with sl = 1,
tp = 2 on a bar with low 1/2 and high 5/2 (both touched) exits at the stop
price with reason SL, and the live per-tick check on a SELL position whose
sl and tp are both breached closes at the stop price with reason SL. -/
theorem sl_resolved_before_tp_witness :
    Backtest.checkExit ⟨10000, 0, 0, 1/50, 3, true, 1/10000⟩
      { side := "BUY", entryTime := 0, entryPrice := 3/2, volume := 1
        sl := 1, tp := 2, barIndex := 0 } (5/2) (1/2) 2 7
      = some (Backtest.buildTrade ⟨10000, 0, 0, 1/50, 3, true, 1/10000⟩
          { side := "BUY", entryTime := 0, entryPrice := 3/2, volume := 1
            sl := 1, tp := 2, barIndex := 0 } 1 7 ExitReason.sl) ∧
    Engine.checkSlTpOne "SELL" 1 2 (3/2) (3/2) = some (1, ExitReason.sl) := by
  have h := sl_resolved_before_tp ⟨10000, 0, 0, 1/50, 3, true, 1/10000⟩
    { side := "BUY", entryTime := 0, entryPrice := 3/2, volume := 1
      sl := 1, tp := 2, barIndex := 0 } (5/2) (1/2) 2 7 (by norm_num)
  exact ⟨h.1, h.2 "SELL" 1 2 (3/2) (3/2)
    (by rw [if_neg (by decide : ¬("SELL" : String) = "BUY")]; norm_num)⟩

/-- C4 counterexample: from a Running state (one streaming thread spawned,
one warm-up performed), a second call to `TradingEngine.start()` is NOT
rejected — it changes the state, spawning a second streaming thread and
performing a second warm-up, refuting the claim that `start()` from any
state other than Stopped leaves the engine state unchanged. -/
theorem start_while_running_not_rejected_cex :
    Engine.start { running := true, streamThreads := 1, warmups := 1
                   events := ["engine_started"] }
      ≠ { running := true, streamThreads := 1, warmups := 1
          events := ["engine_started"] } ∧
    (Engine.start { running := true, streamThreads := 1, warmups := 1
                    events := ["engine_started"] }).streamThreads = 2 ∧
    (Engine.start { running := true, streamThreads := 1, warmups := 1
                    events := ["engine_started"] }).warmups = 2 := by
  refine ⟨?_, rfl, rfl⟩
  intro h
  have := congrArg Engine.EngineState.streamThreads h
  simp [Engine.start] at this

/-- C4 (amended): `TradingEngine.start()` performs no state check at all:
from every state — in particular one that is already Running — it performs
another warm-up, spawns another streaming thread, sets the running flag and
emits `engine_started`.  (The rejection of a double start exists only at
the `EngineManager.start_engine` level, not in `TradingEngine.start`.) -/
theorem start_unconditional (s : Engine.EngineState) (h : s.running = true) :
    (Engine.start s).running = true ∧
    (Engine.start s).streamThreads = s.streamThreads + 1 ∧
    (Engine.start s).warmups = s.warmups + 1 ∧
    (Engine.start s).events = s.events ++ ["engine_started"] := by
  exact ⟨rfl, rfl, rfl, rfl⟩

/-- Witness for `start_unconditional` at a concrete Running state. -/
theorem start_unconditional_witness :
    ({ running := true, streamThreads := 1, warmups := 1
       events := ["engine_started"] } : Engine.EngineState).running = true ∧
    (Engine.start { running := true, streamThreads := 1, warmups := 1
                    events := ["engine_started"] }).streamThreads = 1 + 1 := by
  exact ⟨rfl, (start_unconditional
    { running := true, streamThreads := 1, warmups := 1
      events := ["engine_started"] } rfl).2.1⟩

/-- C5 counterexample: a tick processed while running, whose broker phase
succeeds but whose candle-close processing raises (a candle sealed and
`_on_candle_close` threw), propagates the exception out of `_on_tick` —
refuting the claim that any exception raised during tick processing is
caught inside `_on_tick`.  (Only the broker price-update / SL-TP block sits
inside the `try`.) -/
theorem on_tick_exception_propagates_cex :
    Engine.onTickFlow true false false true true 0 = Except.error () ∧
    Engine.onTickFlow true false true false false 0 = Except.error () := by
  exact ⟨rfl, rfl⟩

/-- C5 (amended): exceptions raised inside the guarded broker block of
`_on_tick` (price update and SL/TP check) are caught and increment the
consecutive error counter; when that block succeeds the counter resets to
zero; when the engine is not running the tick is ignored.  But an exception
raised during candle aggregation, or during candle-close processing after a
candle sealed, propagates out of `_on_tick` (it is caught only in
`_run_stream`, which then treats the stream as dead). -/
theorem on_tick_error_containment (errors : ℕ)
    (brokerRaises aggRaises candleSealed closeRaises : Bool) :
    (aggRaises = false → (candleSealed && closeRaises) = false →
      Engine.onTickFlow true brokerRaises aggRaises candleSealed closeRaises errors
        = Except.ok (if brokerRaises then errors + 1 else 0)) ∧
    (aggRaises = true ∨ (candleSealed && closeRaises) = true →
      Engine.onTickFlow true brokerRaises aggRaises candleSealed closeRaises errors
        = Except.error ()) ∧
    Engine.onTickFlow false brokerRaises aggRaises candleSealed closeRaises errors
      = Except.ok errors := by
  refine ⟨?_, ?_, rfl⟩
  · intro h1 h2
    simp [Engine.onTickFlow, h1, h2]
  · intro h
    rcases h with h | h <;> simp [Engine.onTickFlow, h]

/-- Witness for `on_tick_error_containment`: a broker-phase exception on a
tick with no sealed candle is swallowed and bumps the counter from 5 to 6;
an exception-free tick resets the counter to 0. -/
theorem on_tick_error_containment_witness :
    Engine.onTickFlow true true false false false 5 = Except.ok 6 ∧
    Engine.onTickFlow true false false false false 5 = Except.ok 0 := by
  refine ⟨?_, ?_⟩
  · have h := (on_tick_error_containment 5 true false false false).1 rfl rfl
    simpa using h
  · have h := (on_tick_error_containment 5 false false false false).1 rfl rfl
    simpa using h

/-- Every pip value in the table (and the default) is nonnegative. -/
theorem pipValues_nonneg (symbol : String) : 0 ≤ Risk.pipValues symbol := by
  unfold Risk.pipValues
  split_ifs <;> norm_num

/-- With fewer than 10 recorded trades, `_kelly_size` falls back to the
fixed `risk_per_trade` fraction. -/
theorem kellySize_fallback (p : Risk.Params) (s : Risk.State)
    (h10 : s.winCount + s.lossCount < 10) :
    Risk.kellySize p s = p.riskPerTrade := by
  unfold Risk.kellySize
  rw [if_pos h10]

/-- C7: `calculate_position_size` returns 0 when the stop distance is 0;
and under the Kelly method with fewer than 10 recorded trades it returns
exactly what the fixed-risk method returns for the same inputs, which (for
a positive stop distance and nonnegative equity and risk fraction) is
`equity × risk_per_trade × pip_value / stop_distance`. -/
theorem calculate_position_size_kelly_fallback
    (p : Risk.Params) (s : Risk.State) (equity slDistance : ℚ) (symbol : String)
    (h10 : s.winCount + s.lossCount < 10) :
    Risk.calculatePositionSize p s equity 0 symbol = 0 ∧
    Risk.calculatePositionSize { p with positionSizeMethod := "kelly" } s
        equity slDistance symbol
      = Risk.calculatePositionSize { p with positionSizeMethod := "fixed_risk" } s
          equity slDistance symbol ∧
    (0 < slDistance → 0 ≤ equity → 0 ≤ p.riskPerTrade →
      Risk.calculatePositionSize { p with positionSizeMethod := "kelly" } s
          equity slDistance symbol
        = equity * p.riskPerTrade * Risk.pipValues symbol / slDistance) := by
  have hk : Risk.kellySize { p with positionSizeMethod := "kelly" } s
      = p.riskPerTrade := kellySize_fallback _ s h10
  refine ⟨?_, ?_, ?_⟩
  · unfold Risk.calculatePositionSize
    norm_num
  · unfold Risk.calculatePositionSize
    by_cases hsd : slDistance ≤ 0
    · rw [if_pos hsd, if_pos hsd]
    · rw [if_neg hsd, if_neg hsd]
      simp [hk]
  · intro hsd heq hrpt
    unfold Risk.calculatePositionSize
    rw [if_neg (not_le.mpr hsd)]
    simp only [hk, if_pos rfl]
    exact max_eq_left (div_nonneg
      (mul_nonneg (mul_nonneg heq hrpt) (pipValues_nonneg symbol)) (le_of_lt hsd))

/-- Witness for `calculate_position_size_kelly_fallback`: fresh statistics
(0 wins, 0 losses), equity 10000, stop distance 1/1000, EURUSD: the Kelly
method returns the fixed-risk value 10000 × (1/50) × (1/10000) / (1/1000). -/
theorem calculate_position_size_kelly_fallback_witness :
    Risk.initialState.winCount + Risk.initialState.lossCount < 10 ∧
    Risk.calculatePositionSize { rmParamsDemo with positionSizeMethod := "kelly" }
        Risk.initialState 10000 (1/1000) "EURUSD=X"
      = 10000 * rmParamsDemo.riskPerTrade * Risk.pipValues "EURUSD=X" / (1/1000) := by
  refine ⟨by norm_num [Risk.initialState], ?_⟩
  exact (calculate_position_size_kelly_fallback rmParamsDemo Risk.initialState
    10000 (1/1000) "EURUSD=X" (by norm_num [Risk.initialState])).2.2
    (by norm_num) (by norm_num) (by norm_num [rmParamsDemo])

/-- If some correlation group in the list contains the prospective key and
already holds at least `max_correlated_exposure` open positions, the group
loop returns false. -/
theorem checkGroups_eq_false (maxCorr : ℕ) (positions : List Risk.BrokerPosition)
    (newKey : String) (gs : List (String × List String))
    (g : String × List String) (hg : g ∈ gs) (hkey : newKey ∈ g.2)
    (hcount : maxCorr ≤
      (positions.filter fun pos => decide (Risk.posKey pos ∈ g.2)).length) :
    Risk.checkGroups maxCorr positions newKey gs = false := by
  induction gs with
  | nil => cases hg
  | cons hd tl ih =>
    rcases List.mem_cons.mp hg with rfl | hg'
    · unfold Risk.checkGroups
      rw [if_pos hkey, if_pos hcount]
    · unfold Risk.checkGroups
      by_cases hhd : newKey ∈ hd.2
      · rw [if_pos hhd]
        by_cases hc : maxCorr ≤
            (positions.filter fun pos => decide (Risk.posKey pos ∈ hd.2)).length
        · rw [if_pos hc]
        · rw [if_neg hc]
          exact ih hg'
      · rw [if_neg hhd]
        exact ih hg'

/-- C8: `check_position_limits` returns false whenever the broker's
open-position count is at least `max_open_positions`; and otherwise it
returns false whenever some correlation group contains the prospective
`{symbol}_{side}` key and already holds at least `max_correlated_exposure`
open positions whose own key lies in that group. -/
theorem check_position_limits_rejects
    (p : Risk.Params) (positions : List Risk.BrokerPosition)
    (symbol side : String) :
    (p.maxOpenPositions ≤ positions.length →
      Risk.checkPositionLimits p positions symbol side = false) ∧
    (∀ g ∈ p.correlationGroups, (symbol ++ "_" ++ side) ∈ g.2 →
      p.maxCorrelatedExposure ≤
        (positions.filter fun pos => decide (Risk.posKey pos ∈ g.2)).length →
      Risk.checkPositionLimits p positions symbol side = false) := by
  constructor
  · intro hlen
    unfold Risk.checkPositionLimits
    rw [if_pos hlen]
  · intro g hg hkey hcount
    unfold Risk.checkPositionLimits
    by_cases hlen : p.maxOpenPositions ≤ positions.length
    · rw [if_pos hlen]
    · rw [if_neg hlen]
      exact checkGroups_eq_false p.maxCorrelatedExposure positions _ _ g hg hkey hcount

/-- Witness for `check_position_limits_rejects`, mirroring the correlated
exposure scenario: open positions EURUSD SELL and GBPUSD SELL both lie in
the USD_LONG group, `max_correlated_exposure = 2`, `max_open_positions = 5`;
a USDJPY BUY order (also USD_LONG) is rejected. -/
theorem check_position_limits_rejects_witness :
    Risk.checkPositionLimits
      { rmParamsDemo with maxOpenPositions := 5 }
      [{ symbol := "EURUSD=X", side := "SELL", entryPrice := 11/10
         volume := 1/10, sl := 111/100, tp := 27/25 },
       { symbol := "GBPUSD=X", side := "SELL", entryPrice := 13/10
         volume := 1/10, sl := 131/100, tp := 32/25 }]
      "USDJPY=X" "BUY" = false := by
  exact (check_position_limits_rejects _ _ "USDJPY=X" "BUY").2
    ("USD_LONG", ["EURUSD=X_SELL", "GBPUSD=X_SELL", "USDJPY=X_BUY"])
    (by decide) (by decide) (by decide)

/-- C10: `record_trade(pnl)` never touches the circuit breaker, the daily
date or the daily starting equity; it always adds `pnl` to the daily
realized PnL; with `pnl = 0` it changes nothing at all (so a zero-PnL trade
also never affects Kelly sizing); with `pnl > 0` it updates exactly the
win-side pair, and with `pnl < 0` exactly the loss-side pair. -/
theorem record_trade_frame (s : Risk.State) (pnl : ℚ) :
    ((Risk.recordTrade s pnl).circuitBreakerActive = s.circuitBreakerActive ∧
     (Risk.recordTrade s pnl).dailyDate = s.dailyDate ∧
     (Risk.recordTrade s pnl).dailyStartingEquity = s.dailyStartingEquity ∧
     (Risk.recordTrade s pnl).dailyRealizedPnl = s.dailyRealizedPnl + pnl) ∧
    Risk.recordTrade s 0 = s ∧
    (∀ p : Risk.Params, Risk.kellySize p (Risk.recordTrade s 0) = Risk.kellySize p s) ∧
    (0 < pnl → Risk.recordTrade s pnl =
      { s with dailyRealizedPnl := s.dailyRealizedPnl + pnl
               winCount := s.winCount + 1, totalWins := s.totalWins + pnl }) ∧
    (pnl < 0 → Risk.recordTrade s pnl =
      { s with dailyRealizedPnl := s.dailyRealizedPnl + pnl
               lossCount := s.lossCount + 1
               totalLosses := s.totalLosses + |pnl| }) := by
  have hzero : Risk.recordTrade s 0 = s := by
    simp [Risk.recordTrade]
  refine ⟨?_, hzero, fun p => by rw [hzero], ?_, ?_⟩
  · unfold Risk.recordTrade
    split_ifs <;> simp
  · intro h
    unfold Risk.recordTrade
    rw [if_pos h]
  · intro h
    unfold Risk.recordTrade
    rw [if_neg (not_lt.mpr (le_of_lt h)), if_pos h]

/-- Witness for `record_trade_frame` at a concrete state and pnl = 7:
the win pair is updated and the loss pair untouched. -/
theorem record_trade_frame_witness :
    (0:ℚ) < 7 ∧
    Risk.recordTrade riskBase 7 =
      { riskBase with dailyRealizedPnl := riskBase.dailyRealizedPnl + 7
                      winCount := riskBase.winCount + 1
                      totalWins := riskBase.totalWins + 7 } := by
  exact ⟨by norm_num, (record_trade_frame riskBase 7).2.2.2.1 (by norm_num)⟩

/-- Folding `update` over a list of prices into a builder that has already
seen at least one tick: open and timestamp are preserved, high/low
accumulate max/min, close tracks the last price, and volume/tick count grow
by the list length. -/
theorem foldl_update_spec (ms : List ℚ) :
    ∀ (b : Candles.CandleBuilder), 0 < b.tickCount →
    (ms.foldl Candles.CandleBuilder.update b).timestamp = b.timestamp ∧
    (ms.foldl Candles.CandleBuilder.update b).openPrice = b.openPrice ∧
    (ms.foldl Candles.CandleBuilder.update b).high = ms.foldl max b.high ∧
    (ms.foldl Candles.CandleBuilder.update b).low = ms.foldl min b.low ∧
    (ms.foldl Candles.CandleBuilder.update b).close
      = ms.foldl (fun _ x => x) b.close ∧
    (ms.foldl Candles.CandleBuilder.update b).volume = b.volume + ms.length ∧
    (ms.foldl Candles.CandleBuilder.update b).tickCount
      = b.tickCount + ms.length := by
  induction ms with
  | nil => intro b _; simp
  | cons m ms ih =>
    intro b hb
    have hb' : b.tickCount ≠ 0 := Nat.pos_iff_ne_zero.mp hb
    have hstep : b.update m =
        { timestamp := b.timestamp, openPrice := b.openPrice
          high := max b.high m, low := min b.low m, close := m
          volume := b.volume + 1, tickCount := b.tickCount + 1 } := by
      simp [Candles.CandleBuilder.update, hb']
    have h := ih (b.update m) (by simp [Candles.CandleBuilder.update])
    rw [hstep] at h
    refine ⟨?_, ?_, ?_, ?_, ?_, ?_, ?_⟩ <;>
      simp [List.foldl_cons, hstep, h.1, h.2.1, h.2.2.1, h.2.2.2.1,
        h.2.2.2.2.1, h.2.2.2.2.2.1, h.2.2.2.2.2.2] <;> omega

/-- Feeding ticks that all floor into the current builder's bucket never
seals a candle: the aggregator just folds their mid-prices into the
builder. -/
theorem feed_same_bucket :
    ∀ (ticks : List Candles.Tick) (agg : Candles.Aggregator)
      (b : Candles.CandleBuilder),
    agg.current = some b →
    (∀ t ∈ ticks, Candles.floorTimestamp t.ts agg.periodSeconds = b.timestamp) →
    agg.feed ticks
      = { agg with current := some (ticks.foldl
          (fun bb t => bb.update (Candles.mid t.bid t.ask)) b) } := by
  intro ticks
  induction ticks with
  | nil =>
    intro agg b hcur _
    simp [Candles.Aggregator.feed, List.foldl_nil, ← hcur]
  | cons t ts ih =>
    intro agg b hcur hts
    have hfloor : Candles.floorTimestamp t.ts agg.periodSeconds = b.timestamp :=
      hts t (List.mem_cons_self t ts)
    have hstep : agg.onTick t.ts t.bid t.ask
        = (none, { agg with current := some (b.update (Candles.mid t.bid t.ask)) }) := by
      simp only [Candles.Aggregator.onTick, hcur, hfloor]
      rw [if_neg (lt_irrefl b.timestamp)]
    show (agg.onTick t.ts t.bid t.ask).2.feed ts = _
    rw [hstep]
    have hts' : ∀ t' ∈ ts,
        Candles.floorTimestamp t'.ts
            ({ agg with current := some (b.update (Candles.mid t.bid t.ask)) }
              : Candles.Aggregator).periodSeconds
          = (b.update (Candles.mid t.bid t.ask)).timestamp := by
      intro t' ht'
      have h2 := hts t' (List.mem_cons_of_mem t ht')
      simpa [Candles.CandleBuilder.update] using h2
    rw [ih _ _ rfl hts']
    simp [List.foldl_cons]

/-- C6: for a non-empty run of ticks whose floored timestamps all share one
period bucket, followed by one tick in a strictly later bucket, the candle
returned on that later tick has open = the first tick's mid, close = the
last in-bucket tick's mid, high/low = the max/min of all in-bucket mids,
and volume = the number of in-bucket ticks. -/
theorem aggregator_seals_ohlcv (period : ℕ) (first later : Candles.Tick)
    (rest : List Candles.Tick)
    (hsame : ∀ t ∈ first :: rest,
      Candles.floorTimestamp t.ts period = Candles.floorTimestamp first.ts period)
    (hlater : Candles.floorTimestamp first.ts period
      < Candles.floorTimestamp later.ts period) :
    (((Candles.Aggregator.start period).feed (first :: rest)).onTick
        later.ts later.bid later.ask).1
      = some
        { timestamp := Candles.floorTimestamp first.ts period
          openPrice := Candles.mid first.bid first.ask
          high := (rest.map fun t => Candles.mid t.bid t.ask).foldl max
            (Candles.mid first.bid first.ask)
          low := (rest.map fun t => Candles.mid t.bid t.ask).foldl min
            (Candles.mid first.bid first.ask)
          close := (rest.map fun t => Candles.mid t.bid t.ask).foldl
            (fun _ x => x) (Candles.mid first.bid first.ask)
          volume := rest.length + 1 } := by
  set m0 := Candles.mid first.bid first.ask with hm0
  set B := Candles.floorTimestamp first.ts period with hB
  have hb0 : (Candles.CandleBuilder.init B).update m0
      = { timestamp := B, openPrice := m0, high := m0, low := m0, close := m0
          volume := 1, tickCount := 1 } := by
    simp [Candles.CandleBuilder.init, Candles.CandleBuilder.update]
  have hfirst : (Candles.Aggregator.start period).feed (first :: rest)
      = ({ periodSeconds := period, history := [],
           current := some (rest.foldl
             (fun bb t => bb.update (Candles.mid t.bid t.ask))
             ((Candles.CandleBuilder.init B).update m0)) } : Candles.Aggregator) := by
    show ((Candles.Aggregator.start period).onTick first.ts first.bid first.ask).2.feed rest = _
    have hone : (Candles.Aggregator.start period).onTick first.ts first.bid first.ask
        = (none, { periodSeconds := period, history := [],
                   current := some ((Candles.CandleBuilder.init B).update m0) }) := by
      simp [Candles.Aggregator.onTick, Candles.Aggregator.start, hB, hm0]
    rw [hone]
    rw [feed_same_bucket rest _ _ rfl]
    intro t ht
    have := hsame t (List.mem_cons_of_mem first ht)
    rw [hb0]
    exact this
  have hfold := foldl_update_spec (rest.map fun t => Candles.mid t.bid t.ask)
    ((Candles.CandleBuilder.init B).update m0) (by rw [hb0]; norm_num)
  rw [List.foldl_map] at hfold
  rw [hfirst]
  have hcur : (rest.foldl (fun bb t => bb.update (Candles.mid t.bid t.ask))
      ((Candles.CandleBuilder.init B).update m0)).timestamp = B := by
    rw [hfold.1, hb0]
  simp only [Candles.Aggregator.onTick, hcur]
  rw [if_pos hlater]
  · simp only [Candles.CandleBuilder.toCandle]
    congr 1
    rw [hfold.1, hfold.2.1, hfold.2.2.1, hfold.2.2.2.1, hfold.2.2.2.2.1,
      hfold.2.2.2.2.2.1, hb0]
    simp [List.length_map, Nat.add_comm]

/-- Witness for `aggregator_seals_ohlcv`: a 1h aggregator fed three ticks
at 5s, 100s, 200s with mids 1, 2, 1/2, then a tick at 3700s, returns the
sealed candle (timestamp 0, open 1, high 2, low 1/2, close 1/2, volume 3). -/
theorem aggregator_seals_ohlcv_witness :
    (((Candles.Aggregator.start 3600).feed
        [⟨5, 1, 1⟩, ⟨100, 2, 2⟩, ⟨200, 1/2, 1/2⟩]).onTick 3700 3 3).1
      = some { timestamp := 0, openPrice := 1, high := 2, low := 1/2
               close := 1/2, volume := 3 } := by
  have h := aggregator_seals_ohlcv 3600 ⟨5, 1, 1⟩ ⟨3700, 3, 3⟩
    [⟨100, 2, 2⟩, ⟨200, 1/2, 1/2⟩]
    (by decide) (by decide)
  rw [h]
  norm_num [Candles.mid, Candles.floorTimestamp, max_def, min_def]

/-- Every trade produced by `_check_exit` carries the position's entry
time, the current bar's timestamp as exit time, and reason SL or TP. -/
theorem checkExit_trade_shape (cfg : Backtest.EngineCfg)
    (pos : Backtest.Position) (barHigh barLow barClose : ℚ) (ts : ℕ)
    (t : Backtest.Trade)
    (hx : Backtest.checkExit cfg pos barHigh barLow barClose ts = some t) :
    t.entryTime = pos.entryTime ∧ t.exitTime = ts ∧
    (t.exitReason = ExitReason.sl ∨ t.exitReason = ExitReason.tp) := by
  unfold Backtest.checkExit at hx
  split_ifs at hx <;>
    simp only [Option.some.injEq] at hx <;>
    subst hx <;>
    simp [Backtest.buildTrade]

/-- Phase A only keeps positions that were already open, and every trade it
emits comes from `_check_exit` on one of the open positions. -/
theorem phaseA_spec (cfg : Backtest.EngineCfg) (barHigh barLow barClose : ℚ)
    (ts : ℕ) (ps : List Backtest.Position) :
    (∀ pos ∈ (Backtest.phaseA cfg barHigh barLow barClose ts ps).1, pos ∈ ps) ∧
    (∀ t ∈ (Backtest.phaseA cfg barHigh barLow barClose ts ps).2.1,
      ∃ pos ∈ ps,
        Backtest.checkExit cfg pos barHigh barLow barClose ts = some t) := by
  induction ps with
  | nil => simp [Backtest.phaseA]
  | cons pos rest ih =>
    cases hx : Backtest.checkExit cfg pos barHigh barLow barClose ts with
    | some t =>
      refine ⟨?_, ?_⟩
      · intro q hq
        simp only [Backtest.phaseA, hx] at hq
        exact List.mem_cons_of_mem pos (ih.1 q hq)
      · intro u hu
        simp only [Backtest.phaseA, hx, List.mem_cons] at hu
        rcases hu with rfl | hu
        · exact ⟨pos, List.mem_cons_self pos rest, hx⟩
        · obtain ⟨q, hq, hq'⟩ := ih.2 u hu
          exact ⟨q, List.mem_cons_of_mem pos hq, hq'⟩
    | none =>
      refine ⟨?_, ?_⟩
      · intro q hq
        simp only [Backtest.phaseA, hx, List.mem_cons] at hq
        rcases hq with rfl | hq
        · exact List.mem_cons_self q rest
        · exact List.mem_cons_of_mem pos (ih.1 q hq)
      · intro u hu
        simp only [Backtest.phaseA, hx] at hu
        obtain ⟨q, hq, hq'⟩ := ih.2 u hu
        exact ⟨q, List.mem_cons_of_mem pos hq, hq'⟩

/-- Phase B returns the open positions unchanged except possibly for one
appended position whose entry time is the current bar's timestamp. -/
theorem phaseB_spec (cfg : Backtest.EngineCfg) (i : ℕ) (bar : Backtest.Bar)
    (equity : ℚ) (ps : List Backtest.Position) :
    ∀ pos ∈ Backtest.phaseB cfg i bar equity ps,
      pos ∈ ps ∨ pos.entryTime = bar.timestamp := by
  intro pos hmem
  unfold Backtest.phaseB at hmem
  by_cases h0 : bar.signal.getD 0 = 0
  · rw [if_pos h0] at hmem; exact Or.inl hmem
  · rw [if_neg h0] at hmem
    by_cases hmax : cfg.maxPositions ≤ ps.length
    · rw [if_pos hmax] at hmem; exact Or.inl hmem
    · rw [if_neg hmax] at hmem
      rcases hsl : bar.sl with _ | slPrice <;> rcases htp : bar.tp with _ | tpPrice <;>
        rw [hsl, htp] at hmem <;> dsimp only at hmem
      · exact Or.inl hmem
      · exact Or.inl hmem
      · exact Or.inl hmem
      · by_cases hvol : 0 < Backtest.calculateVolume cfg equity
            (Backtest.applySpreadSlippage cfg bar.close
              (if bar.signal.getD 0 = 1 then "BUY" else "SELL")) slPrice
        · rw [if_pos hvol] at hmem
          rcases List.mem_append.mp hmem with hmem' | hmem'
          · exact Or.inl hmem'
          · rcases List.mem_singleton.mp hmem' with rfl
            exact Or.inr rfl
        · rw [if_neg hvol] at hmem; exact Or.inl hmem

/-- The invariant of the bar loop: if every already-open position was
entered strictly before every remaining bar's timestamp, and every already
closed SL/TP trade exits strictly after its entry, then the same holds for
every trade the loop has closed at the end; moreover no loop trade carries
reason END. -/
theorem runBars_trades_spec (cfg : Backtest.EngineCfg) (bars : List Backtest.Bar) :
    ∀ (i : ℕ) (st : Backtest.RunState),
    List.Pairwise (fun a b => a.timestamp < b.timestamp) bars →
    (∀ pos ∈ st.openPositions, ∀ bar ∈ bars, pos.entryTime < bar.timestamp) →
    (∀ t ∈ st.closedTrades,
      ((t.exitReason = ExitReason.sl ∨ t.exitReason = ExitReason.tp) →
        t.entryTime < t.exitTime) ∧ t.exitReason ≠ ExitReason.endOfData) →
    ∀ t ∈ (Backtest.runBars cfg i bars st).closedTrades,
      ((t.exitReason = ExitReason.sl ∨ t.exitReason = ExitReason.tp) →
        t.entryTime < t.exitTime) ∧ t.exitReason ≠ ExitReason.endOfData := by
  induction bars with
  | nil =>
    intro i st _ _ hclosed
    simpa [Backtest.runBars] using hclosed
  | cons bar rest ih =>
    intro i st hmono hopen hclosed
    rw [List.pairwise_cons] at hmono
    show ∀ t ∈ (Backtest.runBars cfg (i + 1) rest
      (Backtest.processBar cfg i bar st)).closedTrades, _
    apply ih (i + 1) (Backtest.processBar cfg i bar st) hmono.2
    · intro pos hpos b hb
      have hmem := phaseB_spec cfg i bar
        (st.equity + (Backtest.phaseA cfg bar.high bar.low bar.close
          bar.timestamp st.openPositions).2.2)
        (Backtest.phaseA cfg bar.high bar.low bar.close bar.timestamp
          st.openPositions).1 pos hpos
      rcases hmem with hmem | hmem
      · exact hopen pos
          ((phaseA_spec cfg bar.high bar.low bar.close bar.timestamp
            st.openPositions).1 pos hmem) b (List.mem_cons_of_mem bar hb)
      · rw [hmem]
        exact hmono.1 b hb
    · intro t ht
      rcases List.mem_append.mp ht with ht | ht
      · exact hclosed t ht
      · obtain ⟨pos, hpos, hx⟩ := (phaseA_spec cfg bar.high bar.low bar.close
          bar.timestamp st.openPositions).2 t ht
        obtain ⟨he, hxt, hr⟩ := checkExit_trade_shape cfg pos bar.high bar.low
          bar.close bar.timestamp t hx
        refine ⟨fun _ => ?_, ?_⟩
        · rw [he, hxt]
          exact hopen pos hpos bar (List.mem_cons_self bar rest)
        · rcases hr with hr | hr <;> rw [hr] <;> intro hcontra <;> cases hcontra

/-- C9: with strictly increasing bar timestamps, no trade in a backtest
result exits with reason SL or TP on the bar it was entered: every SL/TP
trade has exit time strictly after its entry time (so the earliest possible
SL/TP exit of a position opened at bar i is at bar i+1, even when bar i's
own range already breaches its stop or target); and every trade with reason
END exits at the final bar's close price and timestamp (so a position
opened on the final bar is closed only by the END force-close). -/
theorem backtest_no_same_bar_sl_tp_exit (cfg : Backtest.EngineCfg)
    (bars : List Backtest.Bar)
    (hmono : List.Pairwise (fun a b => a.timestamp < b.timestamp) bars) :
    (∀ t ∈ (Backtest.run cfg bars).1,
      (t.exitReason = ExitReason.sl ∨ t.exitReason = ExitReason.tp) →
      t.entryTime < t.exitTime) ∧
    (∀ t ∈ (Backtest.run cfg bars).1, t.exitReason = ExitReason.endOfData →
      t.exitPrice = (bars.map Backtest.Bar.close).getLastD 0 ∧
      t.exitTime = (bars.map Backtest.Bar.timestamp).getLastD 0) := by
  have hloop := runBars_trades_spec cfg bars 0
    { equity := cfg.capital, openPositions := [], closedTrades := []
      equityCurve := [] } hmono (by simp) (by simp)
  have hrun : (Backtest.run cfg bars).1
      = (Backtest.runBars cfg 0 bars
          { equity := cfg.capital, openPositions := [], closedTrades := []
            equityCurve := [] }).closedTrades
        ++ (Backtest.runBars cfg 0 bars
            { equity := cfg.capital, openPositions := [], closedTrades := []
              equityCurve := [] }).openPositions.map
          (Backtest.endTrade cfg ((bars.map Backtest.Bar.close).getLastD 0)
            ((bars.map Backtest.Bar.timestamp).getLastD 0)) := rfl
  constructor
  · intro t ht hreason
    rw [hrun] at ht
    rcases List.mem_append.mp ht with ht | ht
    · exact (hloop t ht).1 hreason
    · obtain ⟨pos, _, rfl⟩ := List.mem_map.mp ht
      rcases hreason with hr | hr <;> cases hr
  · intro t ht hend
    rw [hrun] at ht
    rcases List.mem_append.mp ht with ht | ht
    · exact absurd hend (hloop t ht).2
    · obtain ⟨pos, _, rfl⟩ := List.mem_map.mp ht
      exact ⟨rfl, rfl⟩

/-- Witness for `backtest_no_same_bar_sl_tp_exit`: in the two-bar demo run,
the BUY position opened on bar 0 — whose own range already touches both its
stop and its target — is closed by SL only on bar 1 (entry time 0, exit
time 1). -/
theorem backtest_no_same_bar_sl_tp_exit_witness :
    List.Pairwise (fun a b => a.timestamp < b.timestamp) btBarsDemo ∧
    (Backtest.run btCfgDemo btBarsDemo).1 = [btTradeDemo] ∧
    btTradeDemo.entryTime < btTradeDemo.exitTime := by
  have hrun : (Backtest.run btCfgDemo btBarsDemo).1 = [btTradeDemo] := by
    norm_num [Backtest.run, Backtest.runBars, Backtest.processBar, Backtest.phaseA,
      Backtest.phaseB, Backtest.checkExit, Backtest.buildTrade, Backtest.calcPnl,
      Backtest.applySpreadSlippage, Backtest.calculateVolume, Backtest.markToMarket,
      Backtest.unrealizedPnl, btCfgDemo, btBarsDemo, btTradeDemo]
  refine ⟨by decide, hrun, ?_⟩
  exact (backtest_no_same_bar_sl_tp_exit btCfgDemo btBarsDemo (by decide)).1
    btTradeDemo (by rw [hrun]; exact List.mem_singleton_self btTradeDemo)
    (Or.inl rfl)

end ForexScalper
